import Mathlib

/-!
Verification of the strat-engine scanner: a shallow embedding of the
closed-bar oracle, the STRAT bar classifier, the two-bar setup detector,
the bias scorer, the intraday fetch fallback chain, the resampler guard,
the universe rotation scheduler and the per-symbol orchestrator, together
with theorems settling the specification claims.

Timestamps are modelled as market-local (America/New_York) civil time
expressed in integer minutes since the 1970-01-01 00:00 local epoch; a
calendar date is the floor-division of such a timestamp by 1440 and the
16:30 daily close anchor is minute 990 of the date.  Prices are rationals.
-/

unseal Rat.mul Rat.add Rat.inv Rat.sub

/-- One OHLCV bar: `(timestamp, open, high, low, close, volume)`. -/
structure Bar where
  ts : Int
  open_ : ℚ
  high : ℚ
  low : ℚ
  close : ℚ
  volume : ℚ
deriving DecidableEq, Repr

/-- A bar together with its STRAT classification column (`strat`).
`none` models the pandas `None` left by `classify_strat_candles` on the
first row. -/
structure CBar where
  bar : Bar
  strat : Option String
deriving DecidableEq, Repr

def dfltBar : Bar := ⟨0, 0, 0, 0, 0, 0⟩

def dfltCBar : CBar := ⟨dfltBar, none⟩

/-- Python `str(x)` applied to an optional string (`str(None) = "None"`). -/
def pyStr : Option String → String
  | some s => s
  | none => "None"

/-- `_fmt2`: round to two decimals (`float(round(float(x), 2))`). -/
def fmt2 (x : ℚ) : ℚ := ((round (x * 100) : ℤ) : ℚ) / 100

/-- Calendar date (day number) of a NY-local timestamp in minutes. -/
def dateOf (ts : Int) : Int := ts.fdiv 1440

/-- `_market_close_dt`: 16:30 ET on the date of the given timestamp. -/
def marketCloseDt (ts : Int) : Int := (ts.fdiv 1440) * 1440 + 990

/-- Python `str.strip()` (whitespace trim), defined over the character list
so that it evaluates by kernel reduction. -/
def pyStrip (s : String) : String :=
  String.mk (((s.data.dropWhile Char.isWhitespace).reverse.dropWhile
    Char.isWhitespace).reverse)

/-- Python `str.upper()`, defined over the character list. -/
def pyUpper (s : String) : String := String.mk (s.data.map Char.toUpper)

/-- Python `str.lower()`, defined over the character list. -/
def pyLower (s : String) : String := String.mk (s.data.map Char.toLower)

/-- `last_closed_index(tf, df_tf)` from `strat_signals.py`, as a function of
the frame's timestamp column and of the current time `now`. -/
def lastClosedIndex (tf0 : String) (tss : List Int) (now : Int) : Int :=
  match tss.getLast? with
  | none => -1
  | some tsLast =>
    let tf := pyUpper (pyStrip tf0)
    if tf = "W" ∨ tf = "M" ∨ tf = "Q" ∨ tf = "Y" then
      if tsLast > now then -2
      else if now < marketCloseDt tsLast then -2
      else -1
    else if tf = "D" then
      if dateOf tsLast = dateOf now ∧ now < marketCloseDt tsLast then -2 else -1
    else if tf = "1H" then
      if now < tsLast + 60 then -2 else -1
    else if tf = "2H" ∨ tf = "3H" ∨ tf = "4H" then
      if now < tsLast then -2 else -1
    else -1

/-- The if/elif chain of `classify_strat_candles` for one bar relative to its
predecessor; the final `none` mirrors the absent `else` branch. -/
def stratOf (prev curr : Bar) : Option String :=
  if curr.high ≤ prev.high ∧ curr.low ≥ prev.low then some "1"
  else if curr.high > prev.high ∧ curr.low < prev.low then some "3"
  else if curr.high > prev.high then some "2U"
  else if curr.low < prev.low then some "2D"
  else none

def classifyAux (prev : Bar) : List Bar → List CBar
  | [] => []
  | b :: rest => ⟨b, stratOf prev b⟩ :: classifyAux b rest

/-- `classify_strat_candles`: adds the `strat` column; the first row keeps
`None`. -/
def classifyStratCandles : List Bar → List CBar
  | [] => []
  | b :: rest => ⟨b, none⟩ :: classifyAux b rest

theorem classifyAux_length (p : Bar) (l : List Bar) :
    (classifyAux p l).length = l.length := by
  induction l generalizing p with
  | nil => rfl
  | cons b rest ih => simp [classifyAux, ih]

theorem classifyStratCandles_length (l : List Bar) :
    (classifyStratCandles l).length = l.length := by
  cases l with
  | nil => rfl
  | cons b rest => simp [classifyStratCandles, classifyAux_length]

theorem classifyAux_getD (p : Bar) (l : List Bar) (i : Nat) (h : i < l.length) :
    (classifyAux p l).getD i dfltCBar =
      ⟨l.getD i dfltBar,
        stratOf (if i = 0 then p else l.getD (i - 1) dfltBar) (l.getD i dfltBar)⟩ := by
  induction l generalizing p i with
  | nil => simp at h
  | cons b rest ih =>
    cases i with
    | zero => simp [classifyAux]
    | succ j =>
      have hj : j < rest.length := by simpa using h
      have := ih b j hj
      cases j with
      | zero =>
        simp [classifyAux] at this ⊢
        simpa using this
      | succ m =>
        simp [classifyAux] at this ⊢
        simpa using this

theorem classifyStratCandles_getD (l : List Bar) (i : Nat)
    (h1 : 1 ≤ i) (h : i < l.length) :
    (classifyStratCandles l).getD i dfltCBar =
      ⟨l.getD i dfltBar, stratOf (l.getD (i - 1) dfltBar) (l.getD i dfltBar)⟩ := by
  cases l with
  | nil => simp at h
  | cons b rest =>
    cases i with
    | zero => omega
    | succ j =>
      have hj : j < rest.length := by simpa using h
      have := classifyAux_getD b rest j hj
      cases j with
      | zero =>
        simp [classifyStratCandles] at this ⊢
        simpa using this
      | succ m =>
        simp [classifyStratCandles] at this ⊢
        simpa using this

/-- `df.sort_values("timestamp")` on classified frames. -/
def sortByTs (df : List CBar) : List CBar :=
  List.insertionSort (fun a b => a.bar.ts ≤ b.bar.ts) df

/-- `df.sort_values("timestamp")` on raw frames. -/
def sortBarsByTs (df : List Bar) : List Bar :=
  List.insertionSort (fun a b => a.ts ≤ b.ts) df

/-- Python `df.iloc[i]` for a negative index `i`. -/
def pyAt (df : List CBar) (i : Int) : CBar :=
  df.getD ((df.length : Int) + i).toNat dfltCBar

/-- The `(prev_closed, last_closed)` pair that `analyze_last_closed_setups`
reads: the rows at the negative indices `last_idx - 1` and `last_idx` of the
timestamp-sorted frame. -/
def lastClosedPair (df0 : List CBar) (tf : String) (now : Int) : CBar × CBar :=
  let df := sortByTs df0
  let lastIdx := lastClosedIndex tf (df.map fun c => c.bar.ts) now
  (pyAt df (lastIdx - 1), pyAt df lastIdx)

/-- The `StratSignal` dataclass of `strat_signals.py` (its exact field list:
note there are no `last_open` / `last_close` fields). -/
structure StratSignal where
  tf : String
  kind : String
  pattern : String
  setup : String
  direction : Option String
  actionable : String
  entry : Option ℚ
  stop : Option ℚ
  note : String
  prev_closed_ts : Int
  prev_strat : String
  prev_high : ℚ
  prev_low : ℚ
  last_closed_ts : Int
  last_strat : String
  last_high : ℚ
  last_low : ℚ
deriving DecidableEq, Repr, Inhabited

def qstr (x : ℚ) : String := toString x

/-- The emission cases of `analyze_last_closed_setups` as a function of the
`(prev_closed, last_closed)` row pair: inside break (last = 1) both ways,
outside break (last = 3) both ways, RevStrat watch after `(1|3)-(2U|2D)`. -/
def sigBranches (tf : String) (prev last : CBar) : List StratSignal :=
  let prevS := pyStr prev.strat
  let lastS := pyStr last.strat
  let prevHigh := prev.bar.high
  let prevLow := prev.bar.low
  let lastHigh := last.bar.high
  let lastLow := last.bar.low
  let prevTs := prev.bar.ts
  let lastTs := last.bar.ts
  let insideSigs : List StratSignal :=
    if lastS = "1" then
      [{ tf := tf, kind := "NEXT", pattern := prevS ++ "-1",
         setup := "1-2 BREAK_UP", direction := some "bull",
         actionable := "ALERT if price > " ++ qstr (fmt2 lastHigh) ++
           " (inside break UP); stop < " ++ qstr (fmt2 lastLow),
         entry := some (fmt2 lastHigh), stop := some (fmt2 lastLow),
         note := "Inside bar break UP (1-2)",
         prev_closed_ts := prevTs, prev_strat := prevS,
         prev_high := fmt2 prevHigh, prev_low := fmt2 prevLow,
         last_closed_ts := lastTs, last_strat := lastS,
         last_high := fmt2 lastHigh, last_low := fmt2 lastLow },
       { tf := tf, kind := "NEXT", pattern := prevS ++ "-1",
         setup := "1-2 BREAK_DOWN", direction := some "bear",
         actionable := "ALERT if price < " ++ qstr (fmt2 lastLow) ++
           " (inside break DOWN); stop > " ++ qstr (fmt2 lastHigh),
         entry := some (fmt2 lastLow), stop := some (fmt2 lastHigh),
         note := "Inside bar break DOWN (1-2)",
         prev_closed_ts := prevTs, prev_strat := prevS,
         prev_high := fmt2 prevHigh, prev_low := fmt2 prevLow,
         last_closed_ts := lastTs, last_strat := lastS,
         last_high := fmt2 lastHigh, last_low := fmt2 lastLow }]
    else []
  let outsideSigs : List StratSignal :=
    if lastS = "3" then
      [{ tf := tf, kind := "NEXT", pattern := prevS ++ "-3",
         setup := "3-2 BREAK_UP", direction := some "bull",
         actionable := "ALERT if price > " ++ qstr (fmt2 lastHigh) ++
           " (outside break UP); stop < " ++ qstr (fmt2 lastLow),
         entry := some (fmt2 lastHigh), stop := some (fmt2 lastLow),
         note := "Outside bar break UP (3-2)",
         prev_closed_ts := prevTs, prev_strat := prevS,
         prev_high := fmt2 prevHigh, prev_low := fmt2 prevLow,
         last_closed_ts := lastTs, last_strat := lastS,
         last_high := fmt2 lastHigh, last_low := fmt2 lastLow },
       { tf := tf, kind := "NEXT", pattern := prevS ++ "-3",
         setup := "3-2 BREAK_DOWN", direction := some "bear",
         actionable := "ALERT if price < " ++ qstr (fmt2 lastLow) ++
           " (outside break DOWN); stop > " ++ qstr (fmt2 lastHigh),
         entry := some (fmt2 lastLow), stop := some (fmt2 lastHigh),
         note := "Outside bar break DOWN (3-2)",
         prev_closed_ts := prevTs, prev_strat := prevS,
         prev_high := fmt2 prevHigh, prev_low := fmt2 prevLow,
         last_closed_ts := lastTs, last_strat := lastS,
         last_high := fmt2 lastHigh, last_low := fmt2 lastLow }]
    else []
  let revSigs : List StratSignal :=
    if prevS = "1" ∨ prevS = "3" then
      (if lastS = "2U" then
        [{ tf := tf, kind := "NEXT", pattern := prevS ++ "-2U",
           setup := "REVSTRAT " ++ prevS ++ "-2-2 (watch 2D)",
           direction := some "bear",
           actionable := "ALERT if price < " ++ qstr (fmt2 lastLow) ++
             " (RevStrat bear); stop > " ++ qstr (fmt2 lastHigh),
           entry := some (fmt2 lastLow), stop := some (fmt2 lastHigh),
           note := "RevStrat after " ++ prevS ++
             "-2U: watch for 2D reversal (i.e., " ++ prevS ++ "-2U-2D)",
           prev_closed_ts := prevTs, prev_strat := prevS,
           prev_high := fmt2 prevHigh, prev_low := fmt2 prevLow,
           last_closed_ts := lastTs, last_strat := lastS,
           last_high := fmt2 lastHigh, last_low := fmt2 lastLow }]
      else []) ++
      (if lastS = "2D" then
        [{ tf := tf, kind := "NEXT", pattern := prevS ++ "-2D",
           setup := "REVSTRAT " ++ prevS ++ "-2-2 (watch 2U)",
           direction := some "bull",
           actionable := "ALERT if price > " ++ qstr (fmt2 lastHigh) ++
             " (RevStrat bull); stop < " ++ qstr (fmt2 lastLow),
           entry := some (fmt2 lastHigh), stop := some (fmt2 lastLow),
           note := "RevStrat after " ++ prevS ++
             "-2D: watch for 2U reversal (i.e., " ++ prevS ++ "-2D-2U)",
           prev_closed_ts := prevTs, prev_strat := prevS,
           prev_high := fmt2 prevHigh, prev_low := fmt2 prevLow,
           last_closed_ts := lastTs, last_strat := lastS,
           last_high := fmt2 lastHigh, last_low := fmt2 lastLow }]
      else [])
    else []
  insideSigs ++ outsideSigs ++ revSigs

/-- `analyze_last_closed_setups(df_tf, tf)`: NEXT plans from the last two
closed candles, with the current time `now` passed explicitly. -/
def analyzeLastClosedSetups (df0 : List CBar) (tf : String) (now : Int) :
    List StratSignal :=
  if df0.length < 3 then [] else
  let df := sortByTs df0
  let lastIdx := lastClosedIndex tf (df.map fun c => c.bar.ts) now
  let prevIdx := lastIdx - 1
  if (df.length : Int) < |prevIdx| then [] else
  sigBranches tf (pyAt df prevIdx) (pyAt df lastIdx)

theorem sigBranches_mem_fields (tf : String) (prev last : CBar)
    (s : StratSignal) (hs : s ∈ sigBranches tf prev last) :
    s.kind = "NEXT" ∧ s.tf = tf ∧
    s.pattern = pyStr prev.strat ++ "-" ++ pyStr last.strat ∧
    s.prev_strat = pyStr prev.strat ∧ s.last_strat = pyStr last.strat ∧
    s.prev_high = fmt2 prev.bar.high ∧ s.prev_low = fmt2 prev.bar.low ∧
    s.last_high = fmt2 last.bar.high ∧ s.last_low = fmt2 last.bar.low ∧
    s.prev_closed_ts = prev.bar.ts ∧ s.last_closed_ts = last.bar.ts ∧
    ((s.direction = some "bull" ∧ s.entry = some (fmt2 last.bar.high) ∧
        s.stop = some (fmt2 last.bar.low)) ∨
     (s.direction = some "bear" ∧ s.entry = some (fmt2 last.bar.low) ∧
        s.stop = some (fmt2 last.bar.high))) ∧
    (pyStr prev.strat = "1" ∨ pyStr prev.strat = "3" ∨
     pyStr last.strat = "1" ∨ pyStr last.strat = "3") := by
  classical
  by_cases h1 : pyStr last.strat = "1"
  · simp only [sigBranches, h1] at hs
    simp at hs
    rcases hs with hs | hs <;> subst hs
    · exact ⟨rfl, rfl, by rw [h1]; simp [String.append_assoc], rfl, h1.symm,
        rfl, rfl, rfl, rfl, rfl, rfl, Or.inl ⟨rfl, rfl, rfl⟩,
        Or.inr (Or.inr (Or.inl h1))⟩
    · exact ⟨rfl, rfl, by rw [h1]; simp [String.append_assoc], rfl, h1.symm,
        rfl, rfl, rfl, rfl, rfl, rfl, Or.inr ⟨rfl, rfl, rfl⟩,
        Or.inr (Or.inr (Or.inl h1))⟩
  · by_cases h3 : pyStr last.strat = "3"
    · simp only [sigBranches, h3] at hs
      simp at hs
      rcases hs with hs | hs <;> subst hs
      · exact ⟨rfl, rfl, by rw [h3]; simp [String.append_assoc], rfl, h3.symm,
          rfl, rfl, rfl, rfl, rfl, rfl, Or.inl ⟨rfl, rfl, rfl⟩,
          Or.inr (Or.inr (Or.inr h3))⟩
      · exact ⟨rfl, rfl, by rw [h3]; simp [String.append_assoc], rfl, h3.symm,
          rfl, rfl, rfl, rfl, rfl, rfl, Or.inr ⟨rfl, rfl, rfl⟩,
          Or.inr (Or.inr (Or.inr h3))⟩
    · by_cases hp : pyStr prev.strat = "1" ∨ pyStr prev.strat = "3"
      · by_cases h2u : pyStr last.strat = "2U"
        · simp only [sigBranches, h2u] at hs
          simp [hp] at hs
          subst hs
          exact ⟨rfl, rfl, by rw [h2u]; simp [String.append_assoc], rfl, h2u.symm,
            rfl, rfl, rfl, rfl, rfl, rfl, Or.inr ⟨rfl, rfl, rfl⟩,
            by tauto⟩
        · by_cases h2d : pyStr last.strat = "2D"
          · simp only [sigBranches, h2d] at hs
            simp [hp] at hs
            subst hs
            exact ⟨rfl, rfl, by rw [h2d]; simp [String.append_assoc], rfl, h2d.symm,
              rfl, rfl, rfl, rfl, rfl, rfl, Or.inl ⟨rfl, rfl, rfl⟩,
              by tauto⟩
          · simp [sigBranches, h1, h3, h2u, h2d, hp] at hs
      · simp [sigBranches, h1, h3, hp] at hs

theorem analyze_mem_fields (df0 : List CBar) (tf : String) (now : Int)
    (s : StratSignal) (hs : s ∈ analyzeLastClosedSetups df0 tf now) :
    s.kind = "NEXT" ∧ s.tf = tf ∧
    s.pattern = pyStr (lastClosedPair df0 tf now).1.strat ++ "-" ++
      pyStr (lastClosedPair df0 tf now).2.strat ∧
    s.prev_strat = pyStr (lastClosedPair df0 tf now).1.strat ∧
    s.last_strat = pyStr (lastClosedPair df0 tf now).2.strat ∧
    s.prev_high = fmt2 (lastClosedPair df0 tf now).1.bar.high ∧
    s.prev_low = fmt2 (lastClosedPair df0 tf now).1.bar.low ∧
    s.last_high = fmt2 (lastClosedPair df0 tf now).2.bar.high ∧
    s.last_low = fmt2 (lastClosedPair df0 tf now).2.bar.low ∧
    s.prev_closed_ts = (lastClosedPair df0 tf now).1.bar.ts ∧
    s.last_closed_ts = (lastClosedPair df0 tf now).2.bar.ts ∧
    ((s.direction = some "bull" ∧
        s.entry = some (fmt2 (lastClosedPair df0 tf now).2.bar.high) ∧
        s.stop = some (fmt2 (lastClosedPair df0 tf now).2.bar.low)) ∨
     (s.direction = some "bear" ∧
        s.entry = some (fmt2 (lastClosedPair df0 tf now).2.bar.low) ∧
        s.stop = some (fmt2 (lastClosedPair df0 tf now).2.bar.high))) ∧
    (pyStr (lastClosedPair df0 tf now).1.strat = "1" ∨
     pyStr (lastClosedPair df0 tf now).1.strat = "3" ∨
     pyStr (lastClosedPair df0 tf now).2.strat = "1" ∨
     pyStr (lastClosedPair df0 tf now).2.strat = "3") := by
  classical
  by_cases hlen : df0.length < 3
  · simp [analyzeLastClosedSetups, hlen] at hs
  · simp only [analyzeLastClosedSetups] at hs
    rw [if_neg hlen] at hs
    split at hs
    · simp at hs
    · simpa [lastClosedPair] using
        sigBranches_mem_fields tf _ _ s hs

/-- Reference time for concrete evaluations: minute 600 of day 1000. -/
def exNow : Int := 1000 * 1440 + 600

/-- Three daily bars whose final bar has `high = low = 100` and is an inside
bar relative to its predecessor. -/
def cexBarsEq : List Bar :=
  [⟨0, 100, 110, 90, 105, 0⟩, ⟨1440, 100, 105, 95, 100, 0⟩,
   ⟨2880, 100, 100, 100, 100, 0⟩]

/-- Three daily bars ending in an inside bar; variant A of the open/close
values of the last bar. -/
def cexBarsOpenA : List Bar :=
  [⟨0, 100, 110, 90, 105, 0⟩, ⟨1440, 100, 105, 95, 100, 0⟩,
   ⟨2880, 99, 103, 98, 100, 0⟩]

/-- Same frame as `cexBarsOpenA` except the last bar's open and close. -/
def cexBarsOpenB : List Bar :=
  [⟨0, 100, 110, 90, 105, 0⟩, ⟨1440, 100, 105, 95, 100, 0⟩,
   ⟨2880, 102, 103, 98, 101, 0⟩]

/-- Three daily bars ending in an inside bar with distinct high and low. -/
def wBarsInside : List Bar :=
  [⟨0, 100, 110, 90, 105, 0⟩, ⟨1440, 100, 105, 95, 100, 0⟩,
   ⟨2880, 100, 103, 98, 102, 0⟩]

/-- Three daily bars whose last two bars are both classified `2U`. -/
def wBars2s : List Bar :=
  [⟨0, 100, 100, 90, 95, 0⟩, ⟨1440, 100, 101, 91, 100, 0⟩,
   ⟨2880, 100, 102, 92, 101, 0⟩]




/-- C7 counterexample: on a classified frame whose last closed bar has
`high = low = 100`, the detector emits a setup with `entry = stop` (and a
bear setup whose entry still equals the last bar's high), refuting the claim
that every emitted setup has `entry ≠ stop` and `direction = bull ⇔
entry = last.high`. -/
theorem setup_entry_stop_collision_cex :
    ∃ s ∈ analyzeLastClosedSetups (classifyStratCandles cexBarsEq) "D" exNow,
      s.entry = s.stop ∧ s.direction = some "bear" ∧
      s.entry = some (fmt2 100) := by decide

/-- C7 (amended): every emitted setup draws entry and stop from the last
closed bar's high/low rounded to two decimals, with `(entry, stop)` equal to
`(high, low)` for bull and `(low, high)` for bear; whenever the rounded high
and rounded low differ, `entry ≠ stop` and `direction = bull ⇔ entry =
rounded high`. -/
theorem setup_entry_stop_bounds (df0 : List CBar) (tf : String) (now : Int)
    (s : StratSignal) (hs : s ∈ analyzeLastClosedSetups df0 tf now) :
    (s.entry = some (fmt2 (lastClosedPair df0 tf now).2.bar.high) ∨
     s.entry = some (fmt2 (lastClosedPair df0 tf now).2.bar.low)) ∧
    (s.stop = some (fmt2 (lastClosedPair df0 tf now).2.bar.high) ∨
     s.stop = some (fmt2 (lastClosedPair df0 tf now).2.bar.low)) ∧
    ((s.direction = some "bull" ∧
        s.entry = some (fmt2 (lastClosedPair df0 tf now).2.bar.high) ∧
        s.stop = some (fmt2 (lastClosedPair df0 tf now).2.bar.low)) ∨
     (s.direction = some "bear" ∧
        s.entry = some (fmt2 (lastClosedPair df0 tf now).2.bar.low) ∧
        s.stop = some (fmt2 (lastClosedPair df0 tf now).2.bar.high))) ∧
    (fmt2 (lastClosedPair df0 tf now).2.bar.high ≠
        fmt2 (lastClosedPair df0 tf now).2.bar.low →
      s.entry ≠ s.stop ∧
      (s.direction = some "bull" ↔
        s.entry = some (fmt2 (lastClosedPair df0 tf now).2.bar.high))) := by
  obtain ⟨-, -, -, -, -, -, -, -, -, -, -, hdir, -⟩ :=
    analyze_mem_fields df0 tf now s hs
  rcases hdir with ⟨hd, he, ht⟩ | ⟨hd, he, ht⟩
  · refine ⟨Or.inl he, Or.inr ht, Or.inl ⟨hd, he, ht⟩, fun hne => ⟨?_, ?_⟩⟩
    · rw [he, ht]; simpa using hne
    · simp [hd, he]
  · refine ⟨Or.inr he, Or.inl ht, Or.inr ⟨hd, he, ht⟩, fun hne => ⟨?_, ?_⟩⟩
    · rw [he, ht]; simpa using fun h => hne h.symm
    · rw [hd, he]
      constructor
      · intro h; simp at h
      · intro h
        exfalso
        exact hne (Option.some_injective ℚ h).symm

/-- C7 witness: the amended theorem applied to an inside bar with distinct
high and low. -/
theorem setup_entry_stop_bounds_witness :
    ((analyzeLastClosedSetups (classifyStratCandles wBarsInside) "D" exNow).headI ∈
        analyzeLastClosedSetups (classifyStratCandles wBarsInside) "D" exNow) ∧
    ((analyzeLastClosedSetups (classifyStratCandles wBarsInside) "D" exNow).headI.entry =
        some (fmt2 (lastClosedPair (classifyStratCandles wBarsInside) "D" exNow).2.bar.high) ∨
     (analyzeLastClosedSetups (classifyStratCandles wBarsInside) "D" exNow).headI.entry =
        some (fmt2 (lastClosedPair (classifyStratCandles wBarsInside) "D" exNow).2.bar.low)) ∧
    (analyzeLastClosedSetups (classifyStratCandles wBarsInside) "D" exNow).headI.entry ≠
      (analyzeLastClosedSetups (classifyStratCandles wBarsInside) "D" exNow).headI.stop :=
  ⟨by decide,
   (setup_entry_stop_bounds (classifyStratCandles wBarsInside) "D" exNow
      (analyzeLastClosedSetups (classifyStratCandles wBarsInside) "D" exNow).headI
      (by decide)).1,
   ((setup_entry_stop_bounds (classifyStratCandles wBarsInside) "D" exNow
      (analyzeLastClosedSetups (classifyStratCandles wBarsInside) "D" exNow).headI
      (by decide)).2.2.2 (by decide)).1⟩

/-- C5 counterexample: two classified frames that differ only in the last
closed bar's open and close produce identical, non-empty signal lists, so an
emitted setup cannot carry the open or close of the pair (indeed
`StratSignal` stores only the highs and lows). -/
theorem setups_missing_open_close_cex :
    analyzeLastClosedSetups (classifyStratCandles cexBarsOpenA) "D" exNow =
      analyzeLastClosedSetups (classifyStratCandles cexBarsOpenB) "D" exNow ∧
    analyzeLastClosedSetups (classifyStratCandles cexBarsOpenA) "D" exNow ≠ [] ∧
    (cexBarsOpenA.getD 2 dfltBar).open_ ≠ (cexBarsOpenB.getD 2 dfltBar).open_ ∧
    (cexBarsOpenA.getD 2 dfltBar).close ≠ (cexBarsOpenB.getD 2 dfltBar).close := by
  decide

/-- C5 (amended): every emitted setup carries the pattern string
`"{prev.class}-{last.class}"`, both classifications, both timestamps, and the
high and low of both bars rounded to two decimals; the bars' opens and closes
are not carried (the signal record has no such fields). -/
theorem setup_carried_fields (df0 : List CBar) (tf : String) (now : Int)
    (s : StratSignal) (hs : s ∈ analyzeLastClosedSetups df0 tf now) :
    s.pattern = pyStr (lastClosedPair df0 tf now).1.strat ++ "-" ++
      pyStr (lastClosedPair df0 tf now).2.strat ∧
    s.prev_strat = pyStr (lastClosedPair df0 tf now).1.strat ∧
    s.last_strat = pyStr (lastClosedPair df0 tf now).2.strat ∧
    s.prev_closed_ts = (lastClosedPair df0 tf now).1.bar.ts ∧
    s.last_closed_ts = (lastClosedPair df0 tf now).2.bar.ts ∧
    s.prev_high = fmt2 (lastClosedPair df0 tf now).1.bar.high ∧
    s.prev_low = fmt2 (lastClosedPair df0 tf now).1.bar.low ∧
    s.last_high = fmt2 (lastClosedPair df0 tf now).2.bar.high ∧
    s.last_low = fmt2 (lastClosedPair df0 tf now).2.bar.low := by
  obtain ⟨-, -, hpat, hps, hls, hph, hpl, hlh, hll, hpt, hlt, -, -⟩ :=
    analyze_mem_fields df0 tf now s hs
  exact ⟨hpat, hps, hls, hpt, hlt, hph, hpl, hlh, hll⟩

/-- C5 witness: the amended theorem applied to a concrete inside-bar frame. -/
theorem setup_carried_fields_witness :
    ((analyzeLastClosedSetups (classifyStratCandles wBarsInside) "D" exNow).headI ∈
        analyzeLastClosedSetups (classifyStratCandles wBarsInside) "D" exNow) ∧
    (analyzeLastClosedSetups (classifyStratCandles wBarsInside) "D" exNow).headI.pattern =
      pyStr (lastClosedPair (classifyStratCandles wBarsInside) "D" exNow).1.strat ++ "-" ++
      pyStr (lastClosedPair (classifyStratCandles wBarsInside) "D" exNow).2.strat :=
  ⟨by decide,
   (setup_carried_fields (classifyStratCandles wBarsInside) "D" exNow
      (analyzeLastClosedSetups (classifyStratCandles wBarsInside) "D" exNow).headI
      (by decide)).1⟩

/-- C10: when both classes of the last closed pair are directional
(`2U`/`2D`), the detector emits nothing; and every emitted setup has at
least one of `1`/`3` among the pair's classifications. -/
theorem detector_noise_filter (df0 : List CBar) (tf : String) (now : Int) :
    ((pyStr (lastClosedPair df0 tf now).1.strat = "2U" ∨
        pyStr (lastClosedPair df0 tf now).1.strat = "2D") →
     (pyStr (lastClosedPair df0 tf now).2.strat = "2U" ∨
        pyStr (lastClosedPair df0 tf now).2.strat = "2D") →
     analyzeLastClosedSetups df0 tf now = []) ∧
    (∀ s ∈ analyzeLastClosedSetups df0 tf now,
      pyStr (lastClosedPair df0 tf now).1.strat = "1" ∨
      pyStr (lastClosedPair df0 tf now).1.strat = "3" ∨
      pyStr (lastClosedPair df0 tf now).2.strat = "1" ∨
      pyStr (lastClosedPair df0 tf now).2.strat = "3") := by
  constructor
  · intro hp hl
    cases hE : analyzeLastClosedSetups df0 tf now with
    | nil => rfl
    | cons s rest =>
      exfalso
      have hm : s ∈ analyzeLastClosedSetups df0 tf now := by
        rw [hE]; exact List.mem_cons_self s rest
      obtain ⟨-, -, -, -, -, -, -, -, -, -, -, -, hnoise⟩ :=
        analyze_mem_fields df0 tf now s hm
      rcases hp with hp | hp <;> rcases hl with hl | hl <;>
        rcases hnoise with h | h | h | h <;> simp_all
  · intro s hm
    obtain ⟨-, -, -, -, -, -, -, -, -, -, -, -, hnoise⟩ :=
      analyze_mem_fields df0 tf now s hm
    exact hnoise

/-- C10 witness: a concrete `2U`-then-`2U` pair yields no setups. -/
theorem detector_noise_filter_witness :
    pyStr (lastClosedPair (classifyStratCandles wBars2s) "D" exNow).1.strat = "2U" ∧
    pyStr (lastClosedPair (classifyStratCandles wBars2s) "D" exNow).2.strat = "2U" ∧
    analyzeLastClosedSetups (classifyStratCandles wBars2s) "D" exNow = [] :=
  ⟨by decide, by decide,
   (detector_noise_filter (classifyStratCandles wBars2s) "D" exNow).1
     (Or.inl (by decide)) (Or.inl (by decide))⟩

theorem lci_range (tf : String) (tss : List Int) (now : Int) :
    lastClosedIndex tf tss now = -1 ∨ lastClosedIndex tf tss now = -2 := by
  cases h : tss.getLast? with
  | none => simp [lastClosedIndex, h]
  | some ts =>
    simp only [lastClosedIndex, h]
    split_ifs <;> omega

theorem lci_1h (tf : String) (tss : List Int) (now ts : Int)
    (hu : pyUpper (pyStrip tf) = "1H") (hlast : tss.getLast? = some ts) :
    lastClosedIndex tf tss now = -2 ↔ now < ts + 60 := by
  simp only [lastClosedIndex, hlast, hu]
  simp

theorem lci_intraday_right (tf : String) (tss : List Int) (now ts : Int)
    (hu : pyUpper (pyStrip tf) = "2H" ∨ pyUpper (pyStrip tf) = "3H" ∨
      pyUpper (pyStrip tf) = "4H")
    (hlast : tss.getLast? = some ts) :
    lastClosedIndex tf tss now = -2 ↔ now < ts := by
  rcases hu with hu | hu | hu <;>
    (simp only [lastClosedIndex, hlast, hu]; simp)

theorem lci_daily (tf : String) (tss : List Int) (now ts : Int)
    (hu : pyUpper (pyStrip tf) = "D") (hlast : tss.getLast? = some ts) :
    lastClosedIndex tf tss now = -2 ↔
      dateOf ts = dateOf now ∧ now < marketCloseDt now := by
  have h1 : marketCloseDt ts = dateOf ts * 1440 + 990 := rfl
  have h2 : marketCloseDt now = dateOf now * 1440 + 990 := rfl
  simp only [lastClosedIndex, hlast, hu]
  simp
  omega

theorem lci_calendar (tf : String) (tss : List Int) (now ts : Int)
    (hu : pyUpper (pyStrip tf) = "W" ∨ pyUpper (pyStrip tf) = "M" ∨
      pyUpper (pyStrip tf) = "Q" ∨ pyUpper (pyStrip tf) = "Y")
    (hlast : tss.getLast? = some ts) :
    lastClosedIndex tf tss now = -2 ↔
      (now < ts ∨ now < marketCloseDt ts) := by
  rcases hu with hu | hu | hu | hu <;>
    (simp only [lastClosedIndex, hlast, hu]; simp; omega)

/-- C2: for a non-empty frame, `last_closed_index` returns only `-1` or `-2`
and implements the per-timeframe closedness rules: 1H closed iff
`now ≥ label + 1h`; 2H/3H/4H closed iff `now ≥ label`; D returns `-2` iff
the labeled date is today and `now` is before 16:30 ET; W/M/Q/Y return `-2`
iff the label is in the future or `now` is before 16:30 ET on the labeled
date. -/
theorem last_closed_index_rules (tf : String) (tss : List Int) (now ts : Int)
    (hlast : tss.getLast? = some ts) :
    (lastClosedIndex tf tss now = -1 ∨ lastClosedIndex tf tss now = -2) ∧
    (pyUpper (pyStrip tf) = "1H" →
      (lastClosedIndex tf tss now = -1 ↔ ts + 60 ≤ now)) ∧
    ((pyUpper (pyStrip tf) = "2H" ∨ pyUpper (pyStrip tf) = "3H" ∨
        pyUpper (pyStrip tf) = "4H") →
      (lastClosedIndex tf tss now = -1 ↔ ts ≤ now)) ∧
    (pyUpper (pyStrip tf) = "D" →
      (lastClosedIndex tf tss now = -2 ↔
        dateOf ts = dateOf now ∧ now < marketCloseDt now)) ∧
    ((pyUpper (pyStrip tf) = "W" ∨ pyUpper (pyStrip tf) = "M" ∨
        pyUpper (pyStrip tf) = "Q" ∨ pyUpper (pyStrip tf) = "Y") →
      (lastClosedIndex tf tss now = -2 ↔
        (now < ts ∨ now < marketCloseDt ts))) := by
  refine ⟨lci_range tf tss now, ?_, ?_,
    fun hu => lci_daily tf tss now ts hu hlast,
    fun hu => lci_calendar tf tss now ts hu hlast⟩
  · intro hu
    have h2 := lci_1h tf tss now ts hu hlast
    have hr := lci_range tf tss now
    omega
  · intro hu
    have h2 := lci_intraday_right tf tss now ts hu hlast
    have hr := lci_range tf tss now
    omega

/-- C2 witness: the hourly rule evaluated on a three-bar 1H frame. -/
theorem last_closed_index_rules_witness :
    ([0, 60, 120] : List Int).getLast? = some 120 ∧
    (lastClosedIndex "1H" [0, 60, 120] 200 = -1 ∨
      lastClosedIndex "1H" [0, 60, 120] 200 = -2) ∧
    (lastClosedIndex "1H" [0, 60, 120] 200 = -1 ↔ (120 : Int) + 60 ≤ 200) :=
  ⟨by decide,
   (last_closed_index_rules "1H" [0, 60, 120] 200 120 (by decide)).1,
   (last_closed_index_rules "1H" [0, 60, 120] 200 120 (by decide)).2.1 (by decide)⟩

/-- C6: the classifier leaves the first bar unclassified and assigns every
later bar exactly one label from `{1, 2U, 2D, 3}`, determined solely by the
current and previous bar's high/low via the stated rules; identical
consecutive bars are classified `1` (neither `2U` nor `2D` fires). -/
theorem classify_exactly_one_label (df : List Bar) :
    (0 < df.length → ((classifyStratCandles df).getD 0 dfltCBar).strat = none) ∧
    (∀ i, 1 ≤ i → i < df.length →
      ∃ l, ((classifyStratCandles df).getD i dfltCBar).strat = some l ∧
        (l = "1" ∨ l = "2U" ∨ l = "2D" ∨ l = "3") ∧
        (l = "1" ↔ (df.getD i dfltBar).high ≤ (df.getD (i - 1) dfltBar).high ∧
          (df.getD (i - 1) dfltBar).low ≤ (df.getD i dfltBar).low) ∧
        (l = "3" ↔ (df.getD (i - 1) dfltBar).high < (df.getD i dfltBar).high ∧
          (df.getD i dfltBar).low < (df.getD (i - 1) dfltBar).low) ∧
        (l = "2U" ↔
          ¬((df.getD i dfltBar).high ≤ (df.getD (i - 1) dfltBar).high ∧
            (df.getD (i - 1) dfltBar).low ≤ (df.getD i dfltBar).low) ∧
          ¬((df.getD (i - 1) dfltBar).high < (df.getD i dfltBar).high ∧
            (df.getD i dfltBar).low < (df.getD (i - 1) dfltBar).low) ∧
          (df.getD (i - 1) dfltBar).high < (df.getD i dfltBar).high) ∧
        (l = "2D" ↔
          ¬((df.getD i dfltBar).high ≤ (df.getD (i - 1) dfltBar).high ∧
            (df.getD (i - 1) dfltBar).low ≤ (df.getD i dfltBar).low) ∧
          ¬((df.getD (i - 1) dfltBar).high < (df.getD i dfltBar).high ∧
            (df.getD i dfltBar).low < (df.getD (i - 1) dfltBar).low) ∧
          ¬((df.getD (i - 1) dfltBar).high < (df.getD i dfltBar).high) ∧
          (df.getD i dfltBar).low < (df.getD (i - 1) dfltBar).low) ∧
        (df.getD i dfltBar = df.getD (i - 1) dfltBar → l = "1")) := by
  constructor
  · intro h0
    cases df with
    | nil => simp at h0
    | cons b rest => simp [classifyStratCandles]
  · intro i h1 h2
    rw [classifyStratCandles_getD df i h1 h2]
    set P := df.getD (i - 1) dfltBar with hP
    set C := df.getD i dfltBar with hC
    by_cases hin : C.high ≤ P.high ∧ C.low ≥ P.low
    · refine ⟨"1", by simp [stratOf, hin], by simp, ?_, ?_, ?_, ?_, fun _ => rfl⟩
      · simp only [true_iff]
        exact ⟨hin.1, hin.2⟩
      · constructor
        · intro h; simp at h
        · intro h; exact absurd h.1 (not_lt.mpr hin.1)
      · constructor
        · intro h; simp at h
        · intro h; exact absurd hin h.1
      · constructor
        · intro h; simp at h
        · intro h; exact absurd hin h.1
    · by_cases hout : P.high < C.high ∧ C.low < P.low
      · refine ⟨"3", by simp [stratOf, hin, hout], by simp, ?_, ?_, ?_, ?_, ?_⟩
        · constructor
          · intro h; simp at h
          · intro h; exact absurd h.1 (not_le.mpr hout.1)
        · simp only [true_iff]; exact hout
        · constructor
          · intro h; simp at h
          · intro h; exact absurd hout h.2.1
        · constructor
          · intro h; simp at h
          · intro h; exact absurd hout h.2.1
        · intro he
          exfalso
          rw [he] at hout
          exact lt_irrefl _ hout.1
      · by_cases hup : P.high < C.high
        · refine ⟨"2U",
            by
              have hnle : ¬(C.high ≤ P.high) := not_le.mpr hup
              have hnlo : ¬(C.low < P.low) := fun h => hout ⟨hup, h⟩
              simp [stratOf, hnle, hnlo, hup],
            by simp, ?_, ?_, ?_, ?_, ?_⟩
          · constructor
            · intro h; simp at h
            · intro h; exact absurd h.1 (not_le.mpr hup)
          · constructor
            · intro h; simp at h
            · intro h; exact absurd h hout
          · simp only [true_iff]; exact ⟨hin, hout, hup⟩
          · constructor
            · intro h; simp at h
            · intro h; exact absurd hup h.2.2.1
          · intro he
            exfalso
            rw [he] at hup
            exact lt_irrefl _ hup
        · have hdn : C.low < P.low := by
            by_contra hdn
            exact hin ⟨not_lt.mp hup, not_lt.mp hdn⟩
          refine ⟨"2D",
            by
              have hge : ¬(C.low ≥ P.low) := not_le.mpr hdn
              simp [stratOf, hge, hout, hup, hdn],
            by simp, ?_, ?_, ?_, ?_, ?_⟩
          · constructor
            · intro h; simp at h
            · intro h; exact absurd ⟨not_lt.mp hup, h.2⟩ hin
          · constructor
            · intro h; simp at h
            · intro h; exact absurd h hout
          · constructor
            · intro h; simp at h
            · intro h; exact absurd h.2.2 hup
          · simp only [true_iff]; exact ⟨hin, hout, hup, hdn⟩
          · intro he
            exfalso
            rw [he] at hdn
            exact lt_irrefl _ hdn

/-- C6 witness: the rules applied to the third bar of a concrete frame. -/
theorem classify_exactly_one_label_witness :
    (1 ≤ 2 ∧ 2 < cexBarsEq.length) ∧
    ∃ l, ((classifyStratCandles cexBarsEq).getD 2 dfltCBar).strat = some l ∧
      (l = "1" ∨ l = "2U" ∨ l = "2D" ∨ l = "3") ∧
      (l = "1" ↔ (cexBarsEq.getD 2 dfltBar).high ≤ (cexBarsEq.getD 1 dfltBar).high ∧
        (cexBarsEq.getD 1 dfltBar).low ≤ (cexBarsEq.getD 2 dfltBar).low) :=
  ⟨⟨by decide, by decide⟩, by
    obtain ⟨l, ha, hb, hc, -, -, -, -⟩ :=
      (classify_exactly_one_label cexBarsEq).2 2 (by decide) (by decide)
    exact ⟨l, ha, hb, hc⟩⟩

/-- The `WEIGHTS` table (`{"Y": 5, "Q": 4, "M": 3, "W": 2, "D": 1}`) with
`dict.get`'s default `0`. -/
def weightOf (tf : String) : Int :=
  if tf = "Y" then 5 else if tf = "Q" then 4 else if tf = "M" then 3
  else if tf = "W" then 2 else if tf = "D" then 1 else 0

/-- `compute_bias_score(context_closed)` from `main.py`: fold over the
context dict's items in insertion order. -/
def computeBiasScore (ctx : List (String × String)) : Int :=
  ctx.foldl (fun score e =>
    if e.2 = "2U" then score + weightOf e.1
    else if e.2 = "2D" then score - weightOf e.1 else score) 0

/-- The spec's per-timeframe sign: `2U = +1`, `2D = -1`, else (including
absent) `0`. -/
def sgnOf (s : Option String) : Int :=
  match s with
  | none => 0
  | some v => if v = "2U" then 1 else if v = "2D" then -1 else 0

def CONTEXT_TFS : List String := ["Y", "Q", "M", "W", "D"]

/-- The spec's bias formula: `Σ weight(tf) * sign(context tf)` over the five
timeframes `Y/Q/M/W/D`. -/
def specBiasScore (ctxf : String → Option String) : Int :=
  (CONTEXT_TFS.map (fun tf => weightOf tf * sgnOf (ctxf tf))).sum

/-- Python `dict` lookup on an insertion-ordered association list. -/
def lookupAssoc {α : Type} (l : List (String × α)) (k : String) : Option α :=
  (l.find? (fun e => e.1 == k)).map (fun e => e.2)

def biasContrib (e : String × String) : Int := weightOf e.1 * sgnOf (some e.2)

theorem computeBiasScore_foldl (ctx : List (String × String)) (a : Int) :
    ctx.foldl (fun score e =>
      if e.2 = "2U" then score + weightOf e.1
      else if e.2 = "2D" then score - weightOf e.1 else score) a =
    a + (ctx.map biasContrib).sum := by
  induction ctx generalizing a with
  | nil => simp
  | cons e rest ih =>
    simp only [List.foldl_cons, List.map_cons, List.sum_cons]
    rw [ih]
    have hstep : (if e.2 = "2U" then a + weightOf e.1
        else if e.2 = "2D" then a - weightOf e.1 else a) = a + biasContrib e := by
      by_cases h1 : e.2 = "2U"
      · simp [biasContrib, sgnOf, h1]
      · by_cases h2 : e.2 = "2D" <;>
          · simp [biasContrib, sgnOf, h1, h2]
            try ring
    rw [hstep]; ring

theorem computeBiasScore_eq_sum (ctx : List (String × String)) :
    computeBiasScore ctx = (ctx.map biasContrib).sum := by
  simpa using computeBiasScore_foldl ctx 0

theorem specBias_update (k : String) (v : Option String)
    (f g : String → Option String) (hk : k ∈ CONTEXT_TFS)
    (hagree : ∀ tf, tf ≠ k → f tf = g tf)
    (hfk : f k = v) (hgk : g k = none) :
    specBiasScore f = specBiasScore g + weightOf k * sgnOf v := by
  simp only [CONTEXT_TFS, List.mem_cons, List.mem_singleton] at hk
  rcases hk with rfl | rfl | rfl | rfl | (rfl | h)
  · simp only [specBiasScore, CONTEXT_TFS, List.map_cons, List.map_nil,
      List.sum_cons, List.sum_nil]
    rw [hfk, hgk, hagree "Q" (by decide), hagree "M" (by decide),
      hagree "W" (by decide), hagree "D" (by decide)]
    simp [sgnOf]; ring
  · simp only [specBiasScore, CONTEXT_TFS, List.map_cons, List.map_nil,
      List.sum_cons, List.sum_nil]
    rw [hfk, hgk, hagree "Y" (by decide), hagree "M" (by decide),
      hagree "W" (by decide), hagree "D" (by decide)]
    simp [sgnOf]; ring
  · simp only [specBiasScore, CONTEXT_TFS, List.map_cons, List.map_nil,
      List.sum_cons, List.sum_nil]
    rw [hfk, hgk, hagree "Y" (by decide), hagree "Q" (by decide),
      hagree "W" (by decide), hagree "D" (by decide)]
    simp [sgnOf]; ring
  · simp only [specBiasScore, CONTEXT_TFS, List.map_cons, List.map_nil,
      List.sum_cons, List.sum_nil]
    rw [hfk, hgk, hagree "Y" (by decide), hagree "Q" (by decide),
      hagree "M" (by decide), hagree "D" (by decide)]
    simp [sgnOf]; ring
  · simp only [specBiasScore, CONTEXT_TFS, List.map_cons, List.map_nil,
      List.sum_cons, List.sum_nil]
    rw [hfk, hgk, hagree "Y" (by decide), hagree "Q" (by decide),
      hagree "M" (by decide), hagree "W" (by decide)]
    simp [sgnOf]; ring
  · simp at h

theorem lookupAssoc_cons_self {α : Type} (e : String × α)
    (rest : List (String × α)) : lookupAssoc (e :: rest) e.1 = some e.2 := by
  simp [lookupAssoc]

theorem lookupAssoc_not_mem {α : Type} (l : List (String × α)) (k : String)
    (hk : k ∉ l.map Prod.fst) : lookupAssoc l k = none := by
  induction l with
  | nil => simp [lookupAssoc]
  | cons e rest ih =>
    simp only [List.map_cons, List.mem_cons, not_or] at hk
    have he : (e.1 == k) = false := by
      simp only [beq_eq_false_iff_ne, ne_eq]
      exact fun h => hk.1 h.symm
    simp only [lookupAssoc, List.find?_cons, he]
    exact ih hk.2

theorem lookupAssoc_cons_ne {α : Type} (e : String × α)
    (rest : List (String × α)) (k : String) (hne : k ≠ e.1) :
    lookupAssoc (e :: rest) k = lookupAssoc rest k := by
  have he : (e.1 == k) = false := by
    simp only [beq_eq_false_iff_ne, ne_eq]
    exact fun h => hne h.symm
  simp [lookupAssoc, List.find?_cons, he]

/-- C8: on a context mapping whose keys are distinct timeframes among
`{Y, Q, M, W, D}`, `compute_bias_score` equals the spec's signed weighted
sum over the five timeframes (absent = 0), lies in `[-15, 15]`, and is
invariant under permutations of the examination order. -/
theorem bias_score_weighted_sum (ctx : List (String × String))
    (hnd : (ctx.map Prod.fst).Nodup)
    (hsub : ∀ e ∈ ctx, e.1 ∈ CONTEXT_TFS) :
    computeBiasScore ctx = specBiasScore (fun tf => lookupAssoc ctx tf) ∧
    -15 ≤ computeBiasScore ctx ∧ computeBiasScore ctx ≤ 15 ∧
    (∀ ctx', ctx.Perm ctx' → computeBiasScore ctx' = computeBiasScore ctx) := by
  have hmain : ∀ l : List (String × String), (l.map Prod.fst).Nodup →
      (∀ e ∈ l, e.1 ∈ CONTEXT_TFS) →
      computeBiasScore l = specBiasScore (fun tf => lookupAssoc l tf) := by
    intro l
    induction l with
    | nil =>
      intro _ _
      simp [computeBiasScore, specBiasScore, lookupAssoc, CONTEXT_TFS, sgnOf]
    | cons e rest ih =>
      intro hnd hsub
      simp only [List.map_cons, List.nodup_cons] at hnd
      have hrest := ih hnd.2 (fun x hx => hsub x (List.mem_cons_of_mem _ hx))
      have hupd := specBias_update e.1 (some e.2)
        (fun tf => lookupAssoc (e :: rest) tf)
        (fun tf => lookupAssoc rest tf)
        (hsub e (List.mem_cons_self e rest))
        (fun tf hne => lookupAssoc_cons_ne e rest tf hne)
        (lookupAssoc_cons_self e rest)
        (lookupAssoc_not_mem rest e.1 hnd.1)
      rw [computeBiasScore_eq_sum] at hrest ⊢
      simp only [List.map_cons, List.sum_cons]
      rw [hupd, ← hrest]
      simp [biasContrib]
      ring
  have heq := hmain ctx hnd hsub
  have hsgn : ∀ o, -1 ≤ sgnOf o ∧ sgnOf o ≤ 1 := by
    intro o
    cases o with
    | none => simp [sgnOf]
    | some v =>
      simp only [sgnOf]
      split_ifs <;> omega
  have hbound : -15 ≤ specBiasScore (fun tf => lookupAssoc ctx tf) ∧
      specBiasScore (fun tf => lookupAssoc ctx tf) ≤ 15 := by
    have hY := hsgn (lookupAssoc ctx "Y")
    have hQ := hsgn (lookupAssoc ctx "Q")
    have hM := hsgn (lookupAssoc ctx "M")
    have hW := hsgn (lookupAssoc ctx "W")
    have hD := hsgn (lookupAssoc ctx "D")
    simp only [specBiasScore, CONTEXT_TFS, List.map_cons, List.map_nil,
      List.sum_cons, List.sum_nil, weightOf]
    simp only [reduceIte, String.reduceEq]
    omega
  refine ⟨heq, by rw [heq]; exact hbound.1, by rw [heq]; exact hbound.2, ?_⟩
  intro ctx' hp
  rw [computeBiasScore_eq_sum, computeBiasScore_eq_sum]
  exact (hp.map biasContrib).sum_eq.symm

/-- C8 witness: the spec's worked example
`{Y: 2U, Q: 2U, M: 2D, W: 1, D: 2U}` scores `5 + 4 - 3 + 0 + 1 = 7`. -/
theorem bias_score_weighted_sum_witness :
    ([("Y", "2U"), ("Q", "2U"), ("M", "2D"), ("W", "1"),
        ("D", "2U")].map Prod.fst).Nodup ∧
    computeBiasScore [("Y", "2U"), ("Q", "2U"), ("M", "2D"), ("W", "1"),
      ("D", "2U")] =
      specBiasScore (fun tf => lookupAssoc
        [("Y", "2U"), ("Q", "2U"), ("M", "2D"), ("W", "1"), ("D", "2U")] tf) ∧
    computeBiasScore [("Y", "2U"), ("Q", "2U"), ("M", "2D"), ("W", "1"),
      ("D", "2U")] = 7 :=
  ⟨by decide,
   (bias_score_weighted_sum _ (by decide) (by decide)).1,
   by decide⟩

/-- The rotation slice of `load_universe` (universe/loader.py lines
287-306): `take_rotation = min(ROTATION_PER_RUN, len(pool))`; when positive,
slice `[start, start+k)` of the pool with wrap-around where
`start = offset % len(pool)`, and persist `offset = (start + k) % len(pool)`;
otherwise an empty batch with the offset unchanged. -/
def rotationStep (pool : List String) (rpr : Nat) (offset : Nat) :
    List String × Nat :=
  let takeRotation := min rpr pool.length
  if takeRotation > 0 ∧ pool ≠ [] then
    let n := pool.length
    let start := offset % n
    let e := start + takeRotation
    let batch :=
      if e ≤ n then (pool.drop start).take takeRotation
      else pool.drop start ++ pool.take (e - n)
    (batch, (start + takeRotation) % n)
  else ([], offset)

/-- The persisted offset after `j` successive scheduler runs. -/
def rotationOffsets (pool : List String) (rpr : Nat) (offset0 : Nat) :
    Nat → Nat
  | 0 => offset0
  | j + 1 => (rotationStep pool rpr (rotationOffsets pool rpr offset0 j)).2

/-- The rotation batch of run `j` (0-based). -/
def rotationBatch (pool : List String) (rpr : Nat) (offset0 : Nat)
    (j : Nat) : List String :=
  (rotationStep pool rpr (rotationOffsets pool rpr offset0 j)).1

theorem rotationStep_snd (pool : List String) (rpr offset : Nat)
    (hp : pool ≠ []) (hr : 1 ≤ rpr) :
    (rotationStep pool rpr offset).2 =
      (offset % pool.length + min rpr pool.length) % pool.length := by
  have hn : 0 < pool.length := List.length_pos.mpr hp
  have hk : 0 < min rpr pool.length := by omega
  simp only [rotationStep]
  rw [if_pos ⟨hk, hp⟩]

theorem rotationStep_fst (pool : List String) (rpr offset : Nat)
    (hp : pool ≠ []) (hr : 1 ≤ rpr) :
    (rotationStep pool rpr offset).1 =
      (List.range (min rpr pool.length)).map
        (fun i => pool.getD ((offset % pool.length + i) % pool.length) "") := by
  have hn : 0 < pool.length := List.length_pos.mpr hp
  have hk : 0 < min rpr pool.length := by omega
  have hkn : min rpr pool.length ≤ pool.length := by omega
  have hst : offset % pool.length < pool.length := Nat.mod_lt _ hn
  simp only [rotationStep]
  rw [if_pos ⟨hk, hp⟩]
  simp only []
  split_ifs with he
  · apply List.ext_getElem
    · simp only [List.length_take, List.length_drop, List.length_map,
        List.length_range]
      omega
    · intro i h1 h2
      have hi : i < min rpr pool.length := by
        simp only [List.length_take, List.length_drop] at h1
        omega
      have hlt : offset % pool.length + i < pool.length := by omega
      rw [List.getElem_take, List.getElem_drop]
      simp only [List.getElem_map, List.getElem_range]
      rw [Nat.mod_eq_of_lt hlt, List.getD_eq_getElem _ _ hlt]
  · apply List.ext_getElem
    · simp only [List.length_append, List.length_take, List.length_drop,
        List.length_map, List.length_range]
      omega
    · intro i h1 h2
      have hi : i < min rpr pool.length := by
        simp only [List.length_append, List.length_take,
          List.length_drop] at h1
        omega
      simp only [List.getElem_map, List.getElem_range]
      rw [List.getElem_append]
      split_ifs with hcase
      · have hlt : offset % pool.length + i < pool.length := by
          simp only [List.length_drop] at hcase
          omega
        rw [List.getElem_drop]
        rw [Nat.mod_eq_of_lt hlt, List.getD_eq_getElem _ _ hlt]
      · have hge : pool.length ≤ offset % pool.length + i := by
          simp only [List.length_drop] at hcase
          omega
        have hlt2 : offset % pool.length + i - pool.length < pool.length := by
          omega
        rw [List.getElem_take]
        have hmod : (offset % pool.length + i) % pool.length =
            offset % pool.length + i - pool.length := by
          rw [Nat.mod_eq_sub_mod hge]
          exact Nat.mod_eq_of_lt hlt2
        rw [hmod, List.getD_eq_getElem _ _ hlt2]
        congr 1
        simp only [List.length_drop]
        omega

theorem rotationOffsets_mod (pool : List String) (rpr offset0 : Nat)
    (hp : pool ≠ []) (hr : 1 ≤ rpr) (j : Nat) :
    rotationOffsets pool rpr offset0 j % pool.length =
      (offset0 + j * min rpr pool.length) % pool.length := by
  induction j with
  | zero => simp [rotationOffsets]
  | succ j ih =>
    simp only [rotationOffsets]
    rw [rotationStep_snd pool rpr _ hp hr]
    rw [Nat.mod_mod_of_dvd _ dvd_rfl, Nat.mod_add_mod, ← Nat.mod_add_mod, ih,
      Nat.mod_add_mod]
    congr 1
    ring

theorem rotation_coverage (pool : List String) (rpr offset0 : Nat)
    (hp : pool ≠ []) (hr : 1 ≤ rpr) (x : String) (hx : x ∈ pool) :
    ∃ j, j < (pool.length + rpr - 1) / rpr ∧
      x ∈ rotationBatch pool rpr offset0 j := by
  have hn : 0 < pool.length := List.length_pos.mpr hp
  have hk : 0 < min rpr pool.length := by omega
  have hmk : pool.length ≤
      (pool.length + rpr - 1) / rpr * min rpr pool.length := by
    by_cases hc : rpr ≤ pool.length
    · rw [min_eq_left hc]
      have hdm := Nat.div_add_mod' (pool.length + rpr - 1) rpr
      have hmlt : (pool.length + rpr - 1) % rpr < rpr := Nat.mod_lt _ (by omega)
      omega
    · rw [min_eq_right (by omega : pool.length ≤ rpr)]
      have hm1 : 1 ≤ (pool.length + rpr - 1) / rpr := by
        rw [Nat.one_le_div_iff (by omega)]
        omega
      calc pool.length = 1 * pool.length := by ring
        _ ≤ (pool.length + rpr - 1) / rpr * pool.length :=
            Nat.mul_le_mul_right _ hm1
  obtain ⟨idx, hidx, hxe⟩ := List.getElem_of_mem hx
  have hs0 : offset0 % pool.length < pool.length := Nat.mod_lt _ hn
  have hd : (idx + pool.length - offset0 % pool.length) % pool.length <
      pool.length := Nat.mod_lt _ hn
  refine ⟨(idx + pool.length - offset0 % pool.length) % pool.length /
      min rpr pool.length, ?_, ?_⟩
  · rw [Nat.div_lt_iff_lt_mul hk]
    omega
  · rw [rotationBatch, rotationStep_fst pool rpr _ hp hr]
    set d := (idx + pool.length - offset0 % pool.length) % pool.length with hdd
    set k := min rpr pool.length with hkk
    refine List.mem_map.mpr ⟨d % k, List.mem_range.mpr (Nat.mod_lt _ hk), ?_⟩
    rw [rotationOffsets_mod pool rpr offset0 hp hr]
    rw [Nat.mod_add_mod]
    have hsplit : offset0 + d / k * k + d % k = offset0 + d := by
      have := Nat.div_add_mod' d k
      omega
    rw [hsplit]
    have hDmod : (offset0 + d) % pool.length =
        (offset0 + (idx + pool.length - offset0 % pool.length)) %
          pool.length := by
      rw [hdd]
      conv_rhs => rw [Nat.add_mod]
      conv_lhs => rw [Nat.add_mod]
      rw [Nat.mod_mod_of_dvd _ dvd_rfl]
    rw [hDmod]
    have hq := Nat.div_add_mod offset0 pool.length
    have hD : offset0 + (idx + pool.length - offset0 % pool.length) =
        pool.length * (offset0 / pool.length) + (idx + pool.length) := by
      omega
    rw [hD, Nat.mul_add_mod, Nat.add_mod_right, Nat.mod_eq_of_lt hidx]
    rw [List.getD_eq_getElem _ _ hidx]
    exact hxe

/-- C9: for a non-empty expansion pool and `rotation_per_run ≥ 1`, each
run's batch is the deterministic wrap-around slice `[start, start+k)` with
`start = offset mod N` and `k = min(rotation_per_run, N)`, the persisted
offset becomes `(start + k) mod N`, and `⌈N / rotation_per_run⌉` successive
runs visit every pool element at least once. -/
theorem rotation_deterministic_and_covering (pool : List String)
    (rpr offset0 : Nat) (hp : pool ≠ []) (hr : 1 ≤ rpr) :
    (∀ offset,
      (rotationStep pool rpr offset).1 =
        (List.range (min rpr pool.length)).map
          (fun i => pool.getD ((offset % pool.length + i) % pool.length) "") ∧
      (rotationStep pool rpr offset).2 =
        (offset % pool.length + min rpr pool.length) % pool.length) ∧
    (∀ x ∈ pool, ∃ j, j < (pool.length + rpr - 1) / rpr ∧
      x ∈ rotationBatch pool rpr offset0 j) :=
  ⟨fun offset => ⟨rotationStep_fst pool rpr offset hp hr,
      rotationStep_snd pool rpr offset hp hr⟩,
   fun x hx => rotation_coverage pool rpr offset0 hp hr x hx⟩

/-- C9 witness: the spec's rotation-determinism scenario — pool
`[A, B, C, D, E]`, two per run, starting offset 4 — yields batches
`[E, A]`, `[B, C]`, `[D, E]` with persisted offsets 1, 3, 0, and three runs
cover the pool. -/
theorem rotation_deterministic_and_covering_witness :
    (["A", "B", "C", "D", "E"] : List String) ≠ [] ∧
    rotationStep ["A", "B", "C", "D", "E"] 2 4 = (["E", "A"], 1) ∧
    rotationStep ["A", "B", "C", "D", "E"] 2 1 = (["B", "C"], 3) ∧
    rotationStep ["A", "B", "C", "D", "E"] 2 3 = (["D", "E"], 0) ∧
    (∀ x ∈ (["A", "B", "C", "D", "E"] : List String), ∃ j, j < 3 ∧
      x ∈ rotationBatch ["A", "B", "C", "D", "E"] 2 4 j) :=
  ⟨by decide, by decide, by decide, by decide,
   (rotation_deterministic_and_covering ["A", "B", "C", "D", "E"] 2 4
      (by decide) (by decide)).2⟩

def INTRADAY_INTERVALS : List String :=
  ["1m", "2m", "5m", "15m", "30m", "60m", "90m", "1h"]

/-- The fallback period chain of `_download_with_fallback`
(loaders/yahoo.py): hints in `{max, 730d, 365d, 180d}` are overridden to
`60d`; any other non-empty hint is kept verbatim at the head; then `60d`,
`30d`, `7d` are appended when not already present. -/
def fallbackPeriods (period : String) : List String :=
  let base : List String :=
    if period ≠ "" ∧ (pyLower (pyStrip period) = "max" ∨
        pyLower (pyStrip period) = "730d" ∨
        pyLower (pyStrip period) = "365d" ∨
        pyLower (pyStrip period) = "180d") then ["60d"]
    else if period ≠ "" then [period]
    else []
  [("60d" : String), "30d", "7d"].foldl
    (fun acc p => if p ∈ acc then acc else acc ++ [p]) base

/-- `_expected_max_resolution_seconds(interval)`. -/
def expectedMaxResolutionSeconds (interval0 : String) : Int :=
  let interval := pyLower (pyStrip interval0)
  if interval = "60m" ∨ interval = "1h" then 3600 * 2
  else if interval = "30m" then 1800 * 2
  else if interval = "15m" then 900 * 2
  else if interval = "5m" then 300 * 2
  else if interval = "1d" then 86400 * 2
  else 0

/-- The pandas median of a list of rationals: midpoint of the sorted list,
averaging the two central elements for even length. -/
def medianQ (l : List ℚ) : ℚ :=
  let s := List.insertionSort (fun a b => a ≤ b) l
  if s.length = 0 then 0
  else if s.length % 2 = 1 then s.getD (s.length / 2) 0
  else (s.getD (s.length / 2 - 1) 0 + s.getD (s.length / 2) 0) / 2

/-- `_infer_resolution_seconds(df)`: `int()` of the median timestamp gap in
seconds, `0` when fewer than three rows. -/
def inferResolutionSeconds (df : List Bar) : Int :=
  if df.length < 3 then 0 else
  let ts := List.insertionSort (fun a b => a ≤ b) (df.map (fun b => b.ts))
  if ts.length < 3 then 0 else
  let diffs := (ts.zip ts.tail).map (fun p => ((p.2 - p.1 : Int) : ℚ) * 60)
  if diffs.isEmpty then 0 else ⌊medianQ diffs⌋

/-- The period loop of `_download_with_fallback`, with the vendor modelled
as a function from the requested period to the normalized frame it returns:
skip empty results, and for intraday intervals skip results whose inferred
resolution is missing or coarser than expected. -/
def tryPeriods (vendor : String → List Bar) (intervalNorm : String) :
    List String → List Bar
  | [] => []
  | p :: rest =>
    let df := vendor p
    if df.isEmpty then tryPeriods vendor intervalNorm rest
    else
      let maxExpected := expectedMaxResolutionSeconds intervalNorm
      if maxExpected > 0 then
        let res := inferResolutionSeconds df
        if res = 0 then tryPeriods vendor intervalNorm rest
        else if res > maxExpected then tryPeriods vendor intervalNorm rest
        else df
      else df

/-- The periods actually sent to the vendor by the loop of `tryPeriods`:
every tried period up to and including the first accepted one. -/
def attemptedPeriods (vendor : String → List Bar) (intervalNorm : String) :
    List String → List String
  | [] => []
  | p :: rest =>
    let df := vendor p
    if df.isEmpty then p :: attemptedPeriods vendor intervalNorm rest
    else
      let maxExpected := expectedMaxResolutionSeconds intervalNorm
      if maxExpected > 0 then
        let res := inferResolutionSeconds df
        if res = 0 then p :: attemptedPeriods vendor intervalNorm rest
        else if res > maxExpected then
          p :: attemptedPeriods vendor intervalNorm rest
        else [p]
      else [p]

/-- `_download_with_fallback(ticker, interval, period)` with the vendor
abstracted: non-intraday intervals are a single shot with the caller's
period; intraday intervals run the fallback chain. -/
def downloadWithFallback (vendor : String → List Bar)
    (interval period : String) : List Bar :=
  let intervalNorm := pyLower (pyStrip interval)
  if intervalNorm ∈ INTRADAY_INTERVALS then
    tryPeriods vendor intervalNorm (fallbackPeriods period)
  else vendor period

/-- The head of the attempted-period list is always the first chain entry:
it is requested from the vendor before any validation can reject it. -/
theorem attemptedPeriods_head (vendor : String → List Bar)
    (i p : String) (rest : List String) :
    (attemptedPeriods vendor i (p :: rest)).head? = some p := by
  simp only [attemptedPeriods]
  split_ifs <;> rfl

/-- C3 (code bug): the override list `{max, 730d, 365d, 180d}` misses other
long hints, so a caller hint of `90d` heads the chain verbatim and the
first vendor request for 60m data is issued with a 90-day period — the
in-source comment says "never exceed 60d here". Overridden hints such as
`max` do produce the documented `[60d, 30d, 7d]` chain. -/
theorem intraday_fallback_period_exceeds_cap :
    fallbackPeriods "max" = ["60d", "30d", "7d"] ∧
    fallbackPeriods "90d" = ["90d", "60d", "30d", "7d"] ∧
    (∀ vendor : String → List Bar,
      downloadWithFallback vendor "60m" "90d" =
        tryPeriods vendor "60m" ["90d", "60d", "30d", "7d"] ∧
      (attemptedPeriods vendor "60m" (fallbackPeriods "90d")).head? =
        some "90d") := by
  have h : fallbackPeriods "90d" = ["90d", "60d", "30d", "7d"] := by decide
  have h60 : pyLower (pyStrip "60m") = "60m" := by decide
  refine ⟨by decide, h, fun vendor => ⟨?_, ?_⟩⟩
  · show (if pyLower (pyStrip "60m") ∈ INTRADAY_INTERVALS then
        tryPeriods vendor (pyLower (pyStrip "60m")) (fallbackPeriods "90d")
      else vendor "90d") =
      tryPeriods vendor "60m" ["90d", "60d", "30d", "7d"]
    rw [h60, h, if_pos (by decide : ("60m" : String) ∈ INTRADAY_INTERVALS)]
  · rw [h]
    exact attemptedPeriods_head vendor "60m" "90d" ["60d", "30d", "7d"]

/-- The `RULES` table of `resample_timeframe` (timeframes/resample.py). -/
def RULES : List (String × String) :=
  [("5M", "5min"), ("10M", "10min"), ("15M", "15min"), ("30M", "30min"),
   ("60", "60min"), ("60M", "60min"), ("1H", "1h"), ("2H", "2h"),
   ("3H", "3h"), ("4H", "4h"), ("D", "1D"), ("W", "W-FRI"), ("M", "ME"),
   ("Q", "QE"), ("Y", "YE")]

def ruleOf (tf : String) : Option String := lookupAssoc RULES tf

/-- `pd.tseries.frequencies.to_offset(rule).nanos / 1e9`: defined (in
seconds) exactly for the fixed-width rules; `none` models the exception
raised for the calendar rules `W-FRI`/`ME`/`QE`/`YE`. -/
def targetSecOf (rule : String) : Option ℚ :=
  if rule = "5min" then some 300 else if rule = "10min" then some 600
  else if rule = "15min" then some 900 else if rule = "30min" then some 1800
  else if rule = "60min" then some 3600 else if rule = "1h" then some 3600
  else if rule = "2h" then some 7200 else if rule = "3h" then some 10800
  else if rule = "4h" then some 14400 else if rule = "1D" then some 86400
  else none

def isIntradayTf (tf : String) : Bool :=
  tf ∈ ["5M", "10M", "15M", "30M", "60", "60M", "1H", "2H", "3H", "4H"]

/-- Bucket width in minutes for the fixed-width rules. -/
def widthOf (rule : String) : Int :=
  if rule = "5min" then 5 else if rule = "10min" then 10
  else if rule = "15min" then 15 else if rule = "30min" then 30
  else if rule = "60min" then 60 else if rule = "1h" then 60
  else if rule = "2h" then 120 else if rule = "3h" then 180
  else if rule = "4h" then 240 else 1440

def ceilDivInt (a b : Int) : Int := -((-a).fdiv b)

/-- Civil date from a day number (days since 1970-01-01), by the standard
era decomposition of the proleptic Gregorian calendar. -/
def civilFromDays (z0 : Int) : Int × Int × Int :=
  let z := z0 + 719468
  let era := z.fdiv 146097
  let doe := z - era * 146097
  let yoe := (doe - doe.fdiv 1460 + doe.fdiv 36524 - doe.fdiv 146096).fdiv 365
  let y := yoe + era * 400
  let doy := doe - (365 * yoe + yoe.fdiv 4 - yoe.fdiv 100)
  let mp := (5 * doy + 2).fdiv 153
  let d := doy - (153 * mp + 2).fdiv 5 + 1
  let m := mp + (if mp < 10 then 3 else -9)
  (y + (if m ≤ 2 then 1 else 0), m, d)

/-- Day number of a civil date (inverse of `civilFromDays`). -/
def daysFromCivil (y m d : Int) : Int :=
  let y2 := y - (if m ≤ 2 then 1 else 0)
  let era := y2.fdiv 400
  let yoe := y2 - era * 400
  let mp := m + (if m > 2 then -3 else 9)
  let doy := (153 * mp + 2).fdiv 5 + d - 1
  let doe := yoe * 365 + yoe.fdiv 4 - yoe.fdiv 100 + doy
  era * 146097 + doe - 719468

/-- Day of week, 0 = Sunday (1970-01-01 is a Thursday). -/
def dowOf (day : Int) : Int := (day + 4).emod 7

def fridayOnOrAfter (day : Int) : Int := day + (5 - dowOf day).emod 7

def monthEndDay (day : Int) : Int :=
  let c := civilFromDays day
  (if c.2.1 = 12 then daysFromCivil (c.1 + 1) 1 1
   else daysFromCivil c.1 (c.2.1 + 1) 1) - 1

def quarterEndDay (day : Int) : Int :=
  let c := civilFromDays day
  monthEndDay (daysFromCivil c.1 (((c.2.1 - 1).fdiv 3) * 3 + 3) 1)

def yearEndDay (day : Int) : Int := daysFromCivil (civilFromDays day).1 12 31

/-- Right-closed, right-labeled bucket end for a timestamp: calendar rules
label the period-end date; fixed-width rules label the next edge of the
width grid anchored at `origin`. -/
def bucketEndOf (rule : String) (origin : Int) (t : Int) : Int :=
  if rule = "W-FRI" then fridayOnOrAfter (dateOf t) * 1440
  else if rule = "ME" then monthEndDay (dateOf t) * 1440
  else if rule = "QE" then quarterEndDay (dateOf t) * 1440
  else if rule = "YE" then yearEndDay (dateOf t) * 1440
  else origin + widthOf rule * ceilDivInt (t - origin) (widthOf rule)

/-- OHLCV aggregation of one open bucket, consuming the rest of the sorted
frame: open = first, high = max, low = min, close = last, volume = sum. -/
def groupAggGo (bend : Int → Int) (e : Int) (o h l c v : ℚ) :
    List Bar → List Bar
  | [] => [⟨e, o, h, l, c, v⟩]
  | b :: rest =>
    if bend b.ts = e then
      groupAggGo bend e o (max h b.high) (min l b.low) b.close
        (v + b.volume) rest
    else
      ⟨e, o, h, l, c, v⟩ ::
        groupAggGo bend (bend b.ts) b.open_ b.high b.low b.close b.volume rest

/-- `.resample(rule, label="right", closed="right").agg(ohlc).dropna()` on a
sorted frame: group consecutive rows by bucket end and aggregate (empty
buckets are dropped by the `dropna`). -/
def groupAgg (bend : Int → Int) : List Bar → List Bar
  | [] => []
  | b :: rest => groupAggGo bend (bend b.ts) b.open_ b.high b.low b.close
      b.volume rest

def aggregateResample (rule : String) (intraday : Bool)
    (dfIdx : List Bar) : List Bar :=
  match dfIdx.head? with
  | none => []
  | some b0 =>
    let origin := (b0.ts.fdiv 1440) * 1440 + (if intraday then 30 else 0)
    groupAgg (bucketEndOf rule origin) dfIdx

/-- `_ensure_timestamp_index`: the fixed schema always has the required
columns; timezone normalization is the identity in the NY-minutes model. -/
def ensureTimestampIndex (df : List Bar) : List Bar := sortBarsByTs df

/-- `_infer_input_resolution_seconds(idx)`: `none` models `float("inf")`. -/
def inferInputResolutionSeconds (tss : List Int) : Option ℚ :=
  if tss.length < 3 then none else
  let diffs := (tss.zip tss.tail).map (fun p => ((p.2 - p.1 : Int) : ℚ) * 60)
  if diffs.isEmpty then none else some (medianQ diffs)

/-- The two `ValueError`s of `resample_timeframe`. -/
inductive ResampleError where
  | unsupported (tf : String)
  | downsampleInto (tf : String)
deriving DecidableEq, Repr

/-- `target_sec is not None and target_sec < input_sec` with
`input_sec = inf` modelled by `none`. -/
def ltInputRes (t : ℚ) (inputSec : Option ℚ) : Bool :=
  match inputSec with
  | none => true
  | some i => decide (t < i)

/-- `resample_timeframe(df, timeframe)` (timeframes/resample.py): raising a
`ValueError` is modelled by `Except.error`. -/
def resampleTimeframe (df : List Bar) (timeframe : String) :
    Except ResampleError (List Bar) :=
  let dfIdx := ensureTimestampIndex df
  let tf := pyUpper (pyStrip timeframe)
  match ruleOf tf with
  | none => .error (.unsupported timeframe)
  | some rule =>
    let inputSec := inferInputResolutionSeconds (dfIdx.map (fun b => b.ts))
    match targetSecOf rule with
    | some t =>
      if ltInputRes t inputSec then .error (.downsampleInto timeframe)
      else .ok (aggregateResample rule (isIntradayTf tf) dfIdx)
    | none => .ok (aggregateResample rule (isIntradayTf tf) dfIdx)

/-- The exact condition under which the down-sampling guard fires. -/
def downsampleGuardFires (df : List Bar) (timeframe : String) : Bool :=
  match ruleOf (pyUpper (pyStrip timeframe)) with
  | none => false
  | some rule =>
    match targetSecOf rule with
    | some t => ltInputRes t (inferInputResolutionSeconds
        ((ensureTimestampIndex df).map (fun b => b.ts)))
    | none => false

deriving instance DecidableEq for Except

/-- Three plain daily bars (spacing 86400 s). -/
def cexDaily3 : List Bar :=
  [⟨0, 1, 2, 0, 1, 10⟩, ⟨1440, 1, 2, 0, 1, 10⟩, ⟨2880, 1, 2, 0, 1, 10⟩]

/-- C4 counterexample: resampling a daily frame into the finer fixed-width
target `2H` raises (`ValueError`, modelled as `Except.error`) instead of
returning the empty frame the claim promises. -/
theorem resample_downsample_raises_cex :
    resampleTimeframe cexDaily3 "2H" =
      Except.error (ResampleError.downsampleInto "2H") ∧
    resampleTimeframe cexDaily3 "2H" ≠ Except.ok ([] : List Bar) := by
  decide

/-- C4 (amended): when the fixed-width down-sampling guard fires (target
granularity finer than the inferred base spacing), the resampler raises the
down-sampling `ValueError` — it does not return an empty frame and does not
fabricate bars; for the calendar targets `W/M/Q/Y` the guard does not apply
and the resampler returns a frame. -/
theorem resample_downsample_guard (df : List Bar) (timeframe : String) :
    (downsampleGuardFires df timeframe = true →
      resampleTimeframe df timeframe =
        Except.error (ResampleError.downsampleInto timeframe)) ∧
    (pyUpper (pyStrip timeframe) ∈ (["W", "M", "Q", "Y"] : List String) →
      ∃ out, resampleTimeframe df timeframe = Except.ok out) := by
  constructor
  · intro hg
    simp only [resampleTimeframe]
    cases hrule : ruleOf (pyUpper (pyStrip timeframe)) with
    | none =>
      simp only [downsampleGuardFires, hrule] at hg
      exact Bool.noConfusion hg
    | some rule =>
      cases ht : targetSecOf rule with
      | none =>
        simp only [downsampleGuardFires, hrule, ht] at hg
        exact Bool.noConfusion hg
      | some t =>
        simp only [downsampleGuardFires, hrule, ht] at hg
        simp [ht, hg]
  · intro hmem
    have hcases : pyUpper (pyStrip timeframe) = "W" ∨
        pyUpper (pyStrip timeframe) = "M" ∨
        pyUpper (pyStrip timeframe) = "Q" ∨
        pyUpper (pyStrip timeframe) = "Y" := by simpa using hmem
    rcases hcases with hval | hval | hval | hval <;>
      · have hok : (resampleTimeframe df timeframe).isOk = true := by
          simp only [resampleTimeframe, hval]
          rfl
        cases hres : resampleTimeframe df timeframe with
        | ok out => exact ⟨out, rfl⟩
        | error e =>
          rw [hres] at hok
          exact Bool.noConfusion hok

/-- C4 witness: the guard fires on daily bars resampled to `2H` and yields
the error; the calendar target `W` resamples the same frame without error. -/
theorem resample_downsample_guard_witness :
    downsampleGuardFires cexDaily3 "2H" = true ∧
    resampleTimeframe cexDaily3 "2H" =
      Except.error (ResampleError.downsampleInto "2H") ∧
    pyUpper (pyStrip "W") ∈ (["W", "M", "Q", "Y"] : List String) ∧
    (∃ out, resampleTimeframe cexDaily3 "W" = Except.ok out) :=
  ⟨by decide,
   (resample_downsample_guard cexDaily3 "2H").1 (by decide),
   by decide,
   (resample_downsample_guard cexDaily3 "W").2 (by decide)⟩

/-- Python runtime values stored in `StratSignal` attributes. -/
inductive PyVal where
  | str (v : String)
  | rat (v : ℚ)
  | int (v : Int)
  | ostr (v : Option String)
  | orat (v : Option ℚ)
deriving DecidableEq, Repr

def PyVal.toRat? : PyVal → Option ℚ
  | .rat v => some v
  | _ => none

/-- The Python exception raised by an attribute access on a missing
dataclass field. -/
inductive PyErr where
  | attributeError (name : String)
deriving DecidableEq, Repr

/-- Python attribute access on a `StratSignal`: the complete table of the
dataclass's declared fields; any other name is absent. -/
def StratSignal.getattr (s : StratSignal) (name : String) : Option PyVal :=
  if name = "tf" then some (.str s.tf)
  else if name = "kind" then some (.str s.kind)
  else if name = "pattern" then some (.str s.pattern)
  else if name = "setup" then some (.str s.setup)
  else if name = "direction" then some (.ostr s.direction)
  else if name = "actionable" then some (.str s.actionable)
  else if name = "entry" then some (.orat s.entry)
  else if name = "stop" then some (.orat s.stop)
  else if name = "note" then some (.str s.note)
  else if name = "prev_closed_ts" then some (.int s.prev_closed_ts)
  else if name = "prev_strat" then some (.str s.prev_strat)
  else if name = "prev_high" then some (.rat s.prev_high)
  else if name = "prev_low" then some (.rat s.prev_low)
  else if name = "last_closed_ts" then some (.int s.last_closed_ts)
  else if name = "last_strat" then some (.str s.last_strat)
  else if name = "last_high" then some (.rat s.last_high)
  else if name = "last_low" then some (.rat s.last_low)
  else none

/-- `sig.<name>` in Python: a declared field evaluates to its value; an
undeclared one raises `AttributeError`. -/
def pyGetAttr (s : StratSignal) (name : String) : Except PyErr PyVal :=
  match s.getattr name with
  | some v => .ok v
  | none => .error (.attributeError name)

/-- `candlestick_name(o, h, l, c)` from `main.py`. -/
def candlestickName (o h l c : ℚ) : String :=
  let rng := max (h - l) (1 / 1000000000)
  let body := |c - o|
  let upper := h - max o c
  let lower := min o c - l
  let bull := c > o
  if body ≤ (1 / 10) * rng then
    if lower ≥ (6 / 10) * rng ∧ upper ≤ (15 / 100) * rng then
      "Dragonfly Doji (bullish-leaning)"
    else if upper ≥ (6 / 10) * rng ∧ lower ≤ (15 / 100) * rng then
      "Gravestone Doji (bearish-leaning)"
    else "Doji"
  else if lower ≥ 2 * body ∧ upper ≤ (35 / 100) * body then
    if bull then "Bullish Hammer-like" else "Bearish Hanging-Man-like"
  else if upper ≥ 2 * body ∧ lower ≤ (35 / 100) * body then
    if bull then "Bullish Inverted Hammer-like"
    else "Bearish Shooting-Star-like"
  else if upper ≤ (1 / 10) * rng ∧ lower ≤ (1 / 10) * rng then
    if bull then "Bullish Marubozu-like" else "Bearish Marubozu-like"
  else if bull then "Bullish Candle"
  else if c < o then "Bearish Candle"
  else "Neutral Candle"

/-- One row of the results table assembled by `scan_ticker`. -/
structure Row where
  scan_time : String
  ticker : String
  chart_url : String
  current_price : Option ℚ
  tf : String
  pattern : String
  setup : String
  dir : Option String
  entry : Option ℚ
  stop : Option ℚ
  score : Int
  aligned : Option Bool
  last_strat : String
  last_candle_type : String
  actionable : String
  note : String
  ctx_Y : Option String
  ctx_Q : Option String
  ctx_M : Option String
  ctx_W : Option String
  ctx_D : Option String
deriving DecidableEq, Repr

/-- The per-symbol context row (heatmap input). -/
structure CtxRow where
  scan_time : String
  ticker : String
  current_price : Option ℚ
  ctx_Y_closed : Option String
  ctx_Q_closed : Option String
  ctx_M_closed : Option String
  ctx_W_closed : Option String
  ctx_D_closed : Option String
  ctx_Y_live : Option String
  ctx_Q_live : Option String
  ctx_M_live : Option String
  ctx_W_live : Option String
  ctx_D_live : Option String
  score : Int
deriving DecidableEq, Repr

def TARGET_TFS : List String :=
  ["Y", "Q", "M", "W", "D", "4H", "3H", "2H", "1H"]

/-- `get_current_price(feeds)`: last 60m close when available, else last
daily close. -/
def getCurrentPrice (feeds60 feeds1d : List Bar) : Option ℚ :=
  match feeds60.getLast? with
  | some b => some b.close
  | none =>
    match feeds1d.getLast? with
    | some b => some b.close
    | none => none

/-- The classification loop of `scan_ticker`: frames with at least three
rows are classified and re-sorted by timestamp. -/
def classifiedFrames (frames : List (String × List Bar)) :
    List (String × List CBar) :=
  frames.filterMap (fun e =>
    if e.2.length < 3 then none
    else some (e.1, sortByTs (classifyStratCandles e.2)))

/-- The CLOSED context: per `Y/Q/M/W/D`, `str` of the `strat` of the row at
the last-closed index. -/
def ctxClosedOf (classified : List (String × List CBar)) (now : Int) :
    List (String × String) :=
  CONTEXT_TFS.filterMap (fun tf =>
    match lookupAssoc classified tf with
    | none => none
    | some dfTf =>
      if dfTf.length < 3 then none
      else some (tf, pyStr (pyAt dfTf
        (lastClosedIndex tf (dfTf.map fun c => c.bar.ts) now)).strat))

/-- The LIVE context: per `Y/Q/M/W/D`, the current (possibly repainting)
bar's classification. -/
def ctxLiveOf (classified : List (String × List CBar)) :
    List (String × Option String) :=
  CONTEXT_TFS.filterMap (fun tf =>
    match lookupAssoc classified tf with
    | none => none
    | some dfTf =>
      if dfTf.length < 2 then none
      else some (tf, (dfTf.getD (dfTf.length - 1) dfltCBar).strat))

/-- One result row of `scan_ticker`'s signal loop.  The source reads
`sig.last_open` and `sig.last_close` for `candlestick_name`; those names
are not fields of `StratSignal`, so the access raises. -/
def buildRow (scanTime ticker : String) (px : Option ℚ) (biasScore : Int)
    (ctxClosed : List (String × String)) (sig : StratSignal) :
    Except PyErr Row := do
  let chartUrl := "https://finance.yahoo.com/quote/" ++ ticker ++ "/chart"
  let aligned : Option Bool :=
    if sig.direction = some "bull" then some (decide (biasScore > 0))
    else if sig.direction = some "bear" then some (decide (biasScore < 0))
    else none
  let vo ← pyGetAttr sig "last_open"
  let vh ← pyGetAttr sig "last_high"
  let vl ← pyGetAttr sig "last_low"
  let vc ← pyGetAttr sig "last_close"
  let lastCandleType :=
    match vo.toRat?, vh.toRat?, vl.toRat?, vc.toRat? with
    | some o, some h, some l, some c => candlestickName o h l c
    | _, _, _, _ => "Unknown"
  pure {
    scan_time := scanTime, ticker := ticker, chart_url := chartUrl,
    current_price := px, tf := sig.tf, pattern := sig.pattern,
    setup := sig.setup, dir := sig.direction,
    entry := sig.entry.map fmt2, stop := sig.stop.map fmt2,
    score := biasScore, aligned := aligned, last_strat := sig.last_strat,
    last_candle_type := lastCandleType, actionable := sig.actionable,
    note := sig.note,
    ctx_Y := lookupAssoc ctxClosed "Y", ctx_Q := lookupAssoc ctxClosed "Q",
    ctx_M := lookupAssoc ctxClosed "M", ctx_W := lookupAssoc ctxClosed "W",
    ctx_D := lookupAssoc ctxClosed "D" }

/-- The inner signal loop: TRIGGERED signals are skipped, the rest become
rows (in order). -/
def rowsForSignals (scanTime ticker : String) (px : Option ℚ)
    (biasScore : Int) (ctxClosed : List (String × String)) :
    List StratSignal → Except PyErr (List Row)
  | [] => .ok []
  | sig :: rest =>
    if sig.kind = "TRIGGERED" then
      rowsForSignals scanTime ticker px biasScore ctxClosed rest
    else do
      let r ← buildRow scanTime ticker px biasScore ctxClosed sig
      let rs ← rowsForSignals scanTime ticker px biasScore ctxClosed rest
      pure (r :: rs)

/-- The outer loop of `scan_ticker` over `TARGET_TFS`. -/
def buildRows (scanTime ticker : String) (px : Option ℚ) (biasScore : Int)
    (ctxClosed : List (String × String)) (now : Int)
    (classified : List (String × List CBar)) :
    List String → Except PyErr (List Row)
  | [] => .ok []
  | tf :: rest =>
    match lookupAssoc classified tf with
    | none =>
      buildRows scanTime ticker px biasScore ctxClosed now classified rest
    | some dfTf =>
      if dfTf.length < 3 then
        buildRows scanTime ticker px biasScore ctxClosed now classified rest
      else
        let signals := analyzeLastClosedSetups dfTf tf now
        if signals.isEmpty then
          buildRows scanTime ticker px biasScore ctxClosed now classified rest
        else do
          let tfRows ← rowsForSignals scanTime ticker px biasScore ctxClosed
            signals
          let restRows ← buildRows scanTime ticker px biasScore ctxClosed now
            classified rest
          pure (tfRows ++ restRows)

/-- `scan_ticker(ticker, scan_time)` with the fetched frames passed in
(the result of `build_timeframe_frames`), raising modelled by `Except`. -/
def scanTicker (ticker scanTime : String)
    (frames : List (String × List Bar)) (feeds60 feeds1d : List Bar)
    (now : Int) : Except PyErr (List Row × Option CtxRow) :=
  match lookupAssoc frames "D" with
  | none => .ok ([], none)
  | some dD =>
    if dD.length < 50 then .ok ([], none)
    else
      let px := (getCurrentPrice feeds60 feeds1d).map fmt2
      let classified := classifiedFrames frames
      let ctxClosed := ctxClosedOf classified now
      let ctxLive := ctxLiveOf classified
      let biasScore := computeBiasScore ctxClosed
      let ctxRow : CtxRow := {
        scan_time := scanTime, ticker := ticker, current_price := px,
        ctx_Y_closed := lookupAssoc ctxClosed "Y",
        ctx_Q_closed := lookupAssoc ctxClosed "Q",
        ctx_M_closed := lookupAssoc ctxClosed "M",
        ctx_W_closed := lookupAssoc ctxClosed "W",
        ctx_D_closed := lookupAssoc ctxClosed "D",
        ctx_Y_live := (lookupAssoc ctxLive "Y").join,
        ctx_Q_live := (lookupAssoc ctxLive "Q").join,
        ctx_M_live := (lookupAssoc ctxLive "M").join,
        ctx_W_live := (lookupAssoc ctxLive "W").join,
        ctx_D_live := (lookupAssoc ctxLive "D").join,
        score := biasScore }
      do
        let rows ← buildRows scanTime ticker px biasScore ctxClosed now
          classified TARGET_TFS
        pure (rows, some ctxRow)

/-- The per-ticker `try/except` of `main()`: an exception reduces the
symbol's contribution to no rows and no context row. -/
def mainTickerContribution
    (r : Except PyErr (List Row × Option CtxRow)) :
    List Row × Option CtxRow :=
  match r with
  | .ok x => x
  | .error _ => ([], none)

/-- Whether a target timeframe's classified frame produces at least one
detected signal. -/
def tfYieldsSignals (classified : List (String × List CBar)) (now : Int)
    (tf : String) : Bool :=
  match lookupAssoc classified tf with
  | none => false
  | some dfTf =>
    if dfTf.length < 3 then false
    else !(analyzeLastClosedSetups dfTf tf now).isEmpty

theorem getattr_last_open (s : StratSignal) : s.getattr "last_open" = none := by
  simp [StratSignal.getattr]

theorem buildRow_error (scanTime ticker : String) (px : Option ℚ)
    (biasScore : Int) (ctxClosed : List (String × String))
    (sig : StratSignal) :
    buildRow scanTime ticker px biasScore ctxClosed sig =
      Except.error (PyErr.attributeError "last_open") := by
  simp only [buildRow, pyGetAttr, getattr_last_open]
  rfl

theorem rowsForSignals_error (scanTime ticker : String) (px : Option ℚ)
    (biasScore : Int) (ctxClosed : List (String × String))
    (signals : List StratSignal) (hne : signals ≠ [])
    (hkind : ∀ s ∈ signals, s.kind = "NEXT") :
    rowsForSignals scanTime ticker px biasScore ctxClosed signals =
      Except.error (PyErr.attributeError "last_open") := by
  cases signals with
  | nil => exact absurd rfl hne
  | cons s rest =>
    have hk := hkind s (List.mem_cons_self s rest)
    have hnt : ¬(s.kind = "TRIGGERED") := by rw [hk]; decide
    simp only [rowsForSignals, if_neg hnt]
    rw [buildRow_error]
    rfl

theorem buildRows_error (scanTime ticker : String) (px : Option ℚ)
    (biasScore : Int) (ctxClosed : List (String × String)) (now : Int)
    (classified : List (String × List CBar)) (tfs : List String)
    (hsig : ∃ tf ∈ tfs, tfYieldsSignals classified now tf = true) :
    buildRows scanTime ticker px biasScore ctxClosed now classified tfs =
      Except.error (PyErr.attributeError "last_open") := by
  induction tfs with
  | nil => simp at hsig
  | cons tf rest ih =>
    by_cases hcase : tfYieldsSignals classified now tf = true
    · cases hl : lookupAssoc classified tf with
      | none =>
        simp only [tfYieldsSignals, hl] at hcase
        exact Bool.noConfusion hcase
      | some dfTf =>
        by_cases hlen : dfTf.length < 3
        · simp only [tfYieldsSignals, hl, if_pos hlen] at hcase
          exact Bool.noConfusion hcase
        · simp only [tfYieldsSignals, hl, if_neg hlen] at hcase
          have hne : analyzeLastClosedSetups dfTf tf now ≠ [] := by
            intro h
            rw [h] at hcase
            simp at hcase
          have hkind : ∀ s ∈ analyzeLastClosedSetups dfTf tf now,
              s.kind = "NEXT" :=
            fun s hs => (analyze_mem_fields dfTf tf now s hs).1
          have hempty : (analyzeLastClosedSetups dfTf tf now).isEmpty = false := by
            cases hE : analyzeLastClosedSetups dfTf tf now with
            | nil => exact absurd hE hne
            | cons a b => rfl
          simp only [buildRows, hl, if_neg hlen, hempty, Bool.false_eq_true,
            if_false]
          rw [rowsForSignals_error scanTime ticker px biasScore ctxClosed _
            hne hkind]
          rfl
    · have hrest : ∃ tf' ∈ rest, tfYieldsSignals classified now tf' = true := by
        rcases hsig with ⟨tf0, hmem, hy⟩
        rcases List.mem_cons.mp hmem with rfl | hmem'
        · exact absurd hy hcase
        · exact ⟨tf0, hmem', hy⟩
      have hskip : buildRows scanTime ticker px biasScore ctxClosed now
          classified (tf :: rest) =
          buildRows scanTime ticker px biasScore ctxClosed now classified
            rest := by
        cases hl : lookupAssoc classified tf with
        | none => simp only [buildRows, hl]
        | some dfTf =>
          by_cases hlen : dfTf.length < 3
          · simp only [buildRows, hl, if_pos hlen]
          · have hemp : (analyzeLastClosedSetups dfTf tf now).isEmpty = true := by
              cases hE : (analyzeLastClosedSetups dfTf tf now).isEmpty with
              | true => rfl
              | false =>
                exfalso
                apply hcase
                simp only [tfYieldsSignals, hl, if_neg hlen, hE]
                rfl
            simp only [buildRows, hl, if_neg hlen, hemp, if_true]
      rw [hskip]
      exact ih hrest

/-- C1: whenever any target timeframe's classified frame yields at least
one detected setup signal, `scan_ticker` raises `AttributeError` while
building result rows (it reads `sig.last_open`, which `StratSignal` does
not define), and the orchestrator boundary reduces the symbol's
contribution to zero result rows and no context row. -/
theorem scan_ticker_attribute_error (ticker scanTime : String)
    (frames : List (String × List Bar)) (feeds60 feeds1d : List Bar)
    (now : Int) (dD : List Bar)
    (hD : lookupAssoc frames "D" = some dD)
    (h50 : ¬ dD.length < 50)
    (hsig : ∃ tf ∈ TARGET_TFS,
      tfYieldsSignals (classifiedFrames frames) now tf = true) :
    scanTicker ticker scanTime frames feeds60 feeds1d now =
      Except.error (PyErr.attributeError "last_open") ∧
    mainTickerContribution
      (scanTicker ticker scanTime frames feeds60 feeds1d now) =
      ([], none) := by
  have herr : scanTicker ticker scanTime frames feeds60 feeds1d now =
      Except.error (PyErr.attributeError "last_open") := by
    simp only [scanTicker, hD, if_neg h50]
    rw [buildRows_error _ _ _ _ _ _ _ _ hsig]
    rfl
  exact ⟨herr, by rw [herr]; rfl⟩

/-- Fifty daily bars whose last bar is an inside bar (so the daily frame
passes the 50-bar history check and the detector fires). -/
def wBars50 : List Bar :=
  ((List.range 49).map (fun i =>
    ⟨(i : Int) * 1440, 100, 100 + (i : ℚ), 90 + (i : ℚ), 100, 0⟩)) ++
  [⟨49 * 1440, 100, 147, 139, 140, 0⟩]

/-- C1 witness: a concrete symbol whose daily frame yields inside-bar
signals makes `scan_ticker` raise and contribute nothing. -/
theorem scan_ticker_attribute_error_witness :
    lookupAssoc [("D", wBars50)] "D" = some wBars50 ∧
    ¬ wBars50.length < 50 ∧
    scanTicker "AAA" "2026-01-05 09:00:00 EST" [("D", wBars50)] [] []
      (10000 * 1440) = Except.error (PyErr.attributeError "last_open") ∧
    mainTickerContribution (scanTicker "AAA" "2026-01-05 09:00:00 EST"
      [("D", wBars50)] [] [] (10000 * 1440)) = ([], none) :=
  ⟨by decide, by decide,
   (scan_ticker_attribute_error "AAA" "2026-01-05 09:00:00 EST"
      [("D", wBars50)] [] [] (10000 * 1440) wBars50 (by decide) (by decide)
      (by decide)).1,
   (scan_ticker_attribute_error "AAA" "2026-01-05 09:00:00 EST"
      [("D", wBars50)] [] [] (10000 * 1440) wBars50 (by decide) (by decide)
      (by decide)).2⟩
